import Mathlib

/-!
Verification of the client-side logic of the sightline-performance-visualizer
front-end: the network-waterfall impact scoring, row derivation, filtering,
sorting and cursor-marker computation (`NetworkWaterfall.tsx`), the Core Web
Vitals severity classification (the two `WebVitalsGrid` variants), and the
what-if performance simulator (`PerformanceSimulator`).

Numeric values (JavaScript numbers) are modelled as rationals, except the
simulator, which uses `Real.exp` and is therefore modelled over the reals.
`Math.round` is modelled by Mathlib's `round` (both are `⌊x + 1/2⌋`).
-/

namespace Sightline

/-- A network request after the defaults mapping at the top of `chartData`
(NetworkWaterfall.tsx, lines 262-271): every optional field has been replaced
by `0` or the empty string, so all fields here are total. -/
structure NetworkRequest where
  url : String
  protocol : String
  startTime : ℚ
  endTime : ℚ
  transferSize : ℚ
  resourceSize : ℚ
  resourceType : String
  mimeType : String
deriving Repr, DecidableEq

/-- The `multipliers` record lookup with the `|| 0.7` fallback
(NetworkWaterfall.tsx, lines 120-126). No stored multiplier is `0`, so the
JavaScript falsiness fallback fires exactly on absent keys. -/
def resourceTypeMultiplier (rt : String) : ℚ :=
  if rt = "Script" then 1.3
  else if rt = "Stylesheet" then 1.2
  else if rt = "Image" then 1.0
  else if rt = "Font" then 0.8
  else 0.7

/-- `calculateImpactScore` (NetworkWaterfall.tsx, lines 108-129): guarded
normalizations, the weighted combination, the resource-type multiplier, and
the final clamp `Math.min(1, Math.max(0, impact))`. -/
def calculateImpactScore (item : NetworkRequest)
    (totalDuration maxTransferSize globalStartTime : ℚ) : ℚ :=
  let duration := item.endTime - item.startTime
  let normalizedDuration := if 0 < totalDuration then duration / totalDuration else 0
  let normalizedSize := if 0 < maxTransferSize then item.transferSize / maxTransferSize else 0
  let normalizedStart :=
    if 0 < totalDuration then (item.startTime - globalStartTime) / totalDuration else 0
  let earlyWeight := 1 - normalizedStart
  let impact := normalizedDuration * 0.5 + normalizedSize * 0.3 + earlyWeight * 0.2
  min 1 (max 0 (impact * resourceTypeMultiplier item.resourceType))

/-- The impact score exactly as the specification words it: the weighted
combination `0.5*normalizedDuration + 0.3*normalizedSize + 0.2*(1 - normalizedStart)`
multiplied by the resource-type factor, with no clamping.  Stated from the
spec text for comparison against `calculateImpactScore`. -/
def impactScoreSpecFormula (item : NetworkRequest)
    (totalDuration maxTransferSize globalStartTime : ℚ) : ℚ :=
  let normalizedDuration :=
    if 0 < totalDuration then (item.endTime - item.startTime) / totalDuration else 0
  let normalizedSize := if 0 < maxTransferSize then item.transferSize / maxTransferSize else 0
  let normalizedStart :=
    if 0 < totalDuration then (item.startTime - globalStartTime) / totalDuration else 0
  (0.5 * normalizedDuration + 0.3 * normalizedSize + 0.2 * (1 - normalizedStart)) *
    resourceTypeMultiplier item.resourceType

/-- The three impact levels used for bar colouring. -/
inductive ImpactLevel where
  | high
  | medium
  | low
deriving Repr, DecidableEq

/-- `getImpactLevel` (NetworkWaterfall.tsx, lines 131-135). -/
def getImpactLevel (score : ℚ) : ImpactLevel :=
  if 0.6 ≤ score then ImpactLevel.high
  else if 0.3 ≤ score then ImpactLevel.medium
  else ImpactLevel.low

/-- A row of the waterfall chart (the `ChartData` interface, minus the
purely presentational `fullSize` string, which is produced by the
float-logarithm `formatSize` helper, and the `id` interpolation string;
no claim depends on either). -/
structure ChartData where
  name : String
  url : String
  start : ℤ
  duration : ℤ
  size : ℚ
  impactScore : ℚ
  impactLevel : ImpactLevel
  isOptimizedImage : Bool
  isRenderBlockingScript : Bool
  resourceType : String
deriving Repr, DecidableEq

/-- The impact-level branch of `getBarColor`. -/
def impactLevelColor : ImpactLevel → String
  | ImpactLevel.high => "#ef4444"
  | ImpactLevel.medium => "#f59e0b"
  | ImpactLevel.low => "#10b981"

/-- `getBarColor` (NetworkWaterfall.tsx, lines 314-320). -/
def getBarColor (data : ChartData) : String :=
  if data.isRenderBlockingScript then "#a855f7"
  else if data.isOptimizedImage then "#3b82f6"
  else impactLevelColor data.impactLevel

/-- The good / needs-improvement / poor classification of a Web Vitals card. -/
inductive Severity where
  | good
  | needsImprovement
  | poor
deriving Repr, DecidableEq

/-- `getSeverity` (Gauge.tsx bundle, lines 178-205 of the threshold-based
`WebVitalsGrid` variant). -/
def getSeverity (id : String) (value : ℚ) (isTBTFallback : Bool) : Severity :=
  if isTBTFallback then
    if value ≤ 200 then Severity.good
    else if value ≤ 600 then Severity.needsImprovement
    else Severity.poor
  else if id = "lcp" then
    if value ≤ 2500 then Severity.good
    else if value ≤ 4000 then Severity.needsImprovement
    else Severity.poor
  else if id = "inp" then
    if value ≤ 200 then Severity.good
    else if value ≤ 500 then Severity.needsImprovement
    else Severity.poor
  else if id = "cls" then
    if value ≤ 0.1 then Severity.good
    else if value ≤ 0.25 then Severity.needsImprovement
    else Severity.poor
  else Severity.poor

/-- The severity computation inlined in the `WebVitalsGrid` variant of
src/unnamed/part_000 (lines 75-79): it is derived from the Lighthouse
score (`vital.data.score ?? 0`), not from `numericValue`. -/
def scoreSeverity (score : Option ℚ) : Severity :=
  let s := score.getD 0
  if 0.9 ≤ s then Severity.good
  else if 0.5 ≤ s then Severity.needsImprovement
  else Severity.poor

/-- An entry of a Lighthouse audit's `details.items` array (the `AuditItem`
interface): every field except `url` is optional. -/
structure AuditItem where
  url : String
  startTime : Option ℚ := none
  endTime : Option ℚ := none
  networkRequestTime : Option ℚ := none
  networkEndTime : Option ℚ := none
  transferSize : Option ℚ := none
  resourceType : Option String := none
  protocol : Option String := none
  resourceSize : Option ℚ := none
  mimeType : Option String := none
deriving Repr, DecidableEq

/-- The `audits` prop of `NetworkWaterfall`.  Each field collapses the
optional chain `audits[key]?.details?.items` into a single `Option`, which is
all the component ever inspects. -/
structure Audits where
  networkRequests : Option (List AuditItem) := none
  renderBlockingResources : Option (List AuditItem) := none
  modernImageFormats : Option (List AuditItem) := none
  usesOptimizedImages : Option (List AuditItem) := none
  usesWebpImages : Option (List AuditItem) := none
deriving Repr, DecidableEq

/-- `normalizeUrl` (NetworkWaterfall.tsx, line 145): everything before the
first question mark. -/
def normalizeUrl (url : String) : String :=
  (url.splitOn "?").headD url

/-- `renderBlockingSet` (NetworkWaterfall.tsx, lines 232-235), as a list of
normalized URLs; only membership is ever queried, so the JavaScript `Set`
deduplication is immaterial. -/
def renderBlockingSet (audits : Audits) : List String :=
  ((audits.renderBlockingResources.getD []).map (fun item => item.url)).map normalizeUrl

/-- `optimizedImageSet` (NetworkWaterfall.tsx, lines 237-242). -/
def optimizedImageSet (audits : Audits) : List String :=
  (((audits.modernImageFormats.getD []).map (fun item => item.url)) ++
    ((audits.usesOptimizedImages.getD []).map (fun item => item.url)) ++
    ((audits.usesWebpImages.getD []).map (fun item => item.url))).map normalizeUrl

/-- The start time used throughout: `r.startTime ?? r.networkRequestTime`. -/
def itemStart (r : AuditItem) : Option ℚ :=
  r.startTime.orElse (fun _ => r.networkRequestTime)

/-- The end time used throughout: `r.endTime ?? r.networkEndTime`. -/
def itemEnd (r : AuditItem) : Option ℚ :=
  r.endTime.orElse (fun _ => r.networkEndTime)

/-- The result record of the `globalStats` memo. -/
structure GlobalStats where
  startTime : ℚ
  endTime : ℚ
  duration : ℚ
  maxTransferSize : ℚ
deriving Repr, DecidableEq

/-- `globalStats` (NetworkWaterfall.tsx, lines 244-257).  `Math.min` /
`Math.max` over the spread of a non-empty array are modelled with
`List.min?` / `List.max?`; an item passing the validity filter but lacking
both end-time fields would contribute `NaN` in JavaScript and is modelled as
contributing `0` (no settled claim depends on the aggregate end time). -/
def globalStats (audits : Audits) : GlobalStats :=
  match audits.networkRequests with
  | none => ⟨0, 0, 0, 0⟩
  | some raw =>
    let valid := raw.filter (fun r => (itemStart r).isSome)
    if valid.isEmpty then ⟨0, 0, 0, 0⟩
    else
      let start := ((valid.map (fun r => (itemStart r).getD 0)).min?).getD 0
      let stop := ((valid.map (fun r => (itemEnd r).getD 0)).max?).getD 0
      { startTime := start
        endTime := stop
        duration := max 1 (stop - start)
        maxTransferSize := ((valid.map (fun r => r.transferSize.getD 0)).max?).getD 0 }

/-- The defaults mapping producing `rawRequests` (NetworkWaterfall.tsx,
lines 262-271): each missing optional field becomes `0` or the empty
string. -/
def toNetworkRequest (item : AuditItem) : NetworkRequest :=
  { url := item.url
    protocol := item.protocol.getD ""
    startTime := (itemStart item).getD 0
    endTime := (itemEnd item).getD 0
    transferSize := item.transferSize.getD 0
    resourceSize := item.resourceSize.getD 0
    resourceType := item.resourceType.getD ""
    mimeType := item.mimeType.getD "" }

/-- The display name `item.url.split('/').pop()?.split('?')[0] || item.url`
(NetworkWaterfall.tsx, line 288). -/
def displayName (url : String) : String :=
  let last := (url.splitOn "/").getLastD ""
  let nm := (last.splitOn "?").headD ""
  if nm = "" then url else nm

/-- The per-request row transform inside `chartData`
(NetworkWaterfall.tsx, lines 278-300). -/
def toChartData (audits : Audits) (stats : GlobalStats) (item : NetworkRequest) : ChartData :=
  let start := max 0 (item.startTime - stats.startTime)
  let duration := max 1 (item.endTime - item.startTime)
  let impactScore :=
    calculateImpactScore item stats.duration stats.maxTransferSize stats.startTime
  { name := displayName item.url
    url := item.url
    start := round start
    duration := round duration
    size := item.transferSize
    impactScore := impactScore
    impactLevel := getImpactLevel impactScore
    isOptimizedImage :=
      item.resourceType == "Image" && (optimizedImageSet audits).contains (normalizeUrl item.url)
    isRenderBlockingScript :=
      item.resourceType == "Script" && (renderBlockingSet audits).contains (normalizeUrl item.url)
    resourceType := item.resourceType }

/-- The `transformed` list of `chartData` before filtering and sorting
(NetworkWaterfall.tsx, lines 259-300).  After the defaults mapping,
`r.startTime` and `r.endTime` are numbers, never `undefined`, so the
`validRequests` filter keeps every element; it is modelled by the
corresponding always-true filter. -/
def baseRows (audits : Audits) : List ChartData :=
  match audits.networkRequests with
  | none => []
  | some items =>
    let rawRequests := items.map toNetworkRequest
    let validRequests := rawRequests.filter (fun _ => true)
    if validRequests.isEmpty then []
    else validRequests.map (toChartData audits (globalStats audits))

/-- The filtering step of `chartData` (NetworkWaterfall.tsx, lines 302-304). -/
def chartFilter (filterType : String) (rows : List ChartData) : List ChartData :=
  if filterType = "All" then rows
  else rows.filter (fun item => item.resourceType == filterType)

/-- The four sort modes of the waterfall. -/
inductive SortMode where
  | start
  | duration
  | size
  | impact
deriving Repr, DecidableEq

/-- The boolean ordering induced by the sort comparator
(NetworkWaterfall.tsx, lines 306-311): `a` may precede `b` exactly when the
comparator is nonpositive on `(a, b)`. -/
def sortLE (mode : SortMode) (a b : ChartData) : Bool :=
  match mode with
  | SortMode.start => decide (a.start ≤ b.start)
  | SortMode.duration => decide (b.duration ≤ a.duration)
  | SortMode.size => decide (b.size ≤ a.size)
  | SortMode.impact => decide (b.impactScore ≤ a.impactScore)

/-- The relational reading of the order each sort mode displays: ascending
start, descending duration, descending size, descending impact score. -/
def sortKeyRel (mode : SortMode) (a b : ChartData) : Prop :=
  match mode with
  | SortMode.start => a.start ≤ b.start
  | SortMode.duration => b.duration ≤ a.duration
  | SortMode.size => b.size ≤ a.size
  | SortMode.impact => b.impactScore ≤ a.impactScore

/-- The sorting step of `chartData`: JavaScript `Array.prototype.sort` with a
consistent comparator, modelled as a (stable) merge sort under `sortLE`. -/
def sortRows (mode : SortMode) (rows : List ChartData) : List ChartData :=
  rows.mergeSort (sortLE mode)

/-- The fully displayed chart data: transform, then filter, then sort. -/
def chartRowsDisplayed (audits : Audits) (filterType : String) (mode : SortMode) :
    List ChartData :=
  sortRows mode (chartFilter filterType (baseRows audits))

/-- The early-return guard `if (chartData.length === 0) return null`
(NetworkWaterfall.tsx, line 347). -/
def rendersNull (audits : Audits) (filterType : String) (mode : SortMode) : Bool :=
  (chartRowsDisplayed audits filterType mode).isEmpty

/-- What one call of the mouse-move handler does to the marker state:
leave it untouched (early return), clear it (`setMarkerPos(null)`), or set
it to a time in milliseconds. -/
inductive MarkerUpdate where
  | keep
  | clear
  | set (time : ℤ)
deriving Repr, DecidableEq

/-- The display duration `Math.max(globalStats.duration, 28000)`
(NetworkWaterfall.tsx, line 337). -/
def displayDuration (duration : ℚ) : ℚ :=
  max duration 28000

/-- The upper end of the x-axis domain
`[0, Math.max(globalStats.duration, 28000)]` (NetworkWaterfall.tsx,
lines 463 and 504). -/
def xAxisDomainMax (stats : GlobalStats) : ℚ :=
  max stats.duration 28000

/-- `handleMouseMoveHandler` (NetworkWaterfall.tsx, lines 322-345), as a
function of the container width, the mouse offset `x` from the container's
left edge, the zoom level and the global stats.  The `!globalStats.duration`
truthiness guard is the `stats.duration = 0` early return. -/
def handleMouseMoveHandler (stats : GlobalStats) (rectWidth x zoom : ℚ) : MarkerUpdate :=
  if stats.duration = 0 then MarkerUpdate.keep
  else
    let yAxisWidth : ℚ := if 10 < zoom then 0 else 260
    let marginLeft : ℚ := 10
    let marginRight : ℚ := 100
    let totalLeftOffset := yAxisWidth + marginLeft
    let gridWidth := rectWidth - totalLeftOffset - marginRight
    let relativeX := x - totalLeftOffset
    if 0 ≤ relativeX ∧ relativeX ≤ gridWidth then
      MarkerUpdate.set (round (relativeX / gridWidth * displayDuration stats.duration))
    else MarkerUpdate.clear

/-- `calculateSimulatedScore` (src/unnamed/part_001, lines 26-51): the
saturation-curve forecast `min(100, round(base + (100 - base) * (1 - e^-x)))`. -/
noncomputable def calculateSimulatedScore (baseScore : ℤ)
    (jsReduction imageOptimization serverResponse : ℝ) : ℤ :=
  let jsWeight : ℝ := 0.30
  let imgWeight : ℝ := 0.25
  let serverWeight : ℝ := 0.10
  let x := (jsReduction / 100 * jsWeight + imageOptimization / 100 * imgWeight +
    serverResponse / 100 * serverWeight) * 5
  let gainFactor := 1 - Real.exp (-x)
  let distanceTo100 := (100 : ℝ) - (baseScore : ℝ)
  let totalGain := distanceTo100 * gainFactor
  min 100 (round ((baseScore : ℝ) + totalGain))

/-- A Script request twice as long as the global duration, used to exercise
the clamp of `calculateImpactScore`. -/
def longScriptItem : NetworkRequest :=
  { url := "a", protocol := "", startTime := 0, endTime := 2, transferSize := 1,
    resourceSize := 0, resourceType := "Script", mimeType := "" }

/-- An audits value whose only network request carries no timing fields. -/
def noStartAudits : Audits :=
  { networkRequests := some [{ url := "a" }] }

/-- A fully timed Script audit item. -/
def uItem : AuditItem :=
  { url := "u", startTime := some 5, endTime := some 9, transferSize := some 40,
    resourceType := some "Script" }

/-- A fully timed Image audit item. -/
def vItem : AuditItem :=
  { url := "v", startTime := some 3, endTime := some 11, transferSize := some 80,
    resourceType := some "Image" }

/-- A network-requests audit with two fully timed items. -/
def twoItemList : List AuditItem :=
  [uItem, vItem]

/-- An audits value wrapping `twoItemList`. -/
def twoItemAudits : Audits :=
  { networkRequests := some twoItemList }

/-- A sample Script chart row. -/
def scriptRow : ChartData :=
  { name := "u", url := "u", start := 2, duration := 4, size := 40, impactScore := 0,
    impactLevel := ImpactLevel.low, isOptimizedImage := false,
    isRenderBlockingScript := false, resourceType := "Script" }

/-- A sample Image chart row. -/
def imageRow : ChartData :=
  { name := "v", url := "v", start := 0, duration := 8, size := 80, impactScore := 0,
    impactLevel := ImpactLevel.low, isOptimizedImage := false,
    isRenderBlockingScript := false, resourceType := "Image" }

/-! ## Theorems -/

/-- Claim C8: `calculateImpactScore` is total (it is a Lean function) and its
result always lies in `[0, 1]`, including the degenerate inputs
`totalDuration = 0` and `maxTransferSize = 0`: every division is guarded by a
positivity check and the result is clamped with min/max. -/
theorem calculateImpactScore_bounds (item : NetworkRequest)
    (totalDuration maxTransferSize globalStartTime : ℚ) :
    0 ≤ calculateImpactScore item totalDuration maxTransferSize globalStartTime ∧
    calculateImpactScore item totalDuration maxTransferSize globalStartTime ≤ 1 := by
  simp only [calculateImpactScore]
  exact ⟨le_min zero_le_one (le_max_left _ _), min_le_left _ _⟩

/-- Claim C1 (counterexample): for a Script request lasting twice the global
duration, the unclamped weighted formula of the claim gives 39/20 = 1.95,
while `calculateImpactScore` returns the clamped value 1. -/
theorem impactScore_clamp_counterexample :
    calculateImpactScore longScriptItem 1 1 0 = 1 ∧
    impactScoreSpecFormula longScriptItem 1 1 0 = 39 / 20 ∧
    (1 : ℚ) ≠ 39 / 20 := by
  refine ⟨?_, ?_, by norm_num⟩
  · norm_num [calculateImpactScore, longScriptItem, resourceTypeMultiplier]
  · norm_num [impactScoreSpecFormula, longScriptItem, resourceTypeMultiplier]

/-- Claim C1 (amended): the impact score equals the weighted combination
`0.5*normalizedDuration + 0.3*normalizedSize + 0.2*(1 - normalizedStart)`
multiplied by the resource-type factor (Script 1.3, Stylesheet 1.2, Image 1.0,
Font 0.8, anything else 0.7), clamped to the interval `[0, 1]`. -/
theorem calculateImpactScore_eq_clamped_formula (item : NetworkRequest)
    (totalDuration maxTransferSize globalStartTime : ℚ) :
    calculateImpactScore item totalDuration maxTransferSize globalStartTime =
      min 1 (max 0
        (impactScoreSpecFormula item totalDuration maxTransferSize globalStartTime)) := by
  simp only [calculateImpactScore, impactScoreSpecFormula]
  congr 2
  ring

lemma severity_if_good_iff {a b v : ℚ} :
    ((if v ≤ a then Severity.good else if v ≤ b then Severity.needsImprovement
      else Severity.poor) = Severity.good) ↔ v ≤ a := by
  split_ifs with h1 h2 <;> simp [*]

lemma getSeverity_lcp (v : ℚ) :
    getSeverity "lcp" v false =
      if v ≤ 2500 then Severity.good
      else if v ≤ 4000 then Severity.needsImprovement
      else Severity.poor := by
  simp [getSeverity]

lemma getSeverity_inp (v : ℚ) :
    getSeverity "inp" v false =
      if v ≤ 200 then Severity.good
      else if v ≤ 500 then Severity.needsImprovement
      else Severity.poor := by
  simp [getSeverity]

lemma getSeverity_cls (v : ℚ) :
    getSeverity "cls" v false =
      if v ≤ 0.1 then Severity.good
      else if v ≤ 0.25 then Severity.needsImprovement
      else Severity.poor := by
  simp [getSeverity]

lemma getSeverity_fallback (idStr : String) (v : ℚ) :
    getSeverity idStr v true =
      if v ≤ 200 then Severity.good
      else if v ≤ 600 then Severity.needsImprovement
      else Severity.poor := by
  simp [getSeverity]

lemma severity_if_ni_iff {a b v : ℚ} :
    ((if v ≤ a then Severity.good else if v ≤ b then Severity.needsImprovement
      else Severity.poor) = Severity.needsImprovement) ↔ a < v ∧ v ≤ b := by
  split_ifs with h1 h2
  · exact iff_of_false (by simp) (fun hc => absurd h1 (not_le.mpr hc.1))
  · exact iff_of_true rfl ⟨not_le.mp h1, h2⟩
  · exact iff_of_false (by simp) (fun hc => h2 hc.2)

lemma severity_if_poor_iff {a b v : ℚ} (hab : a ≤ b) :
    ((if v ≤ a then Severity.good else if v ≤ b then Severity.needsImprovement
      else Severity.poor) = Severity.poor) ↔ b < v := by
  split_ifs with h1 h2
  · exact iff_of_false (by simp) (fun hc => absurd (le_trans h1 hab) (not_le.mpr hc))
  · exact iff_of_false (by simp) (fun hc => absurd h2 (not_le.mpr hc))
  · exact iff_of_true rfl (not_le.mp h2)

/-- Claim C2 (counterexample): the `WebVitalsGrid` variant of
src/unnamed/part_000 classifies by the Lighthouse score, not by
`numericValue`: an LCP card with score 0.95 and numericValue 3000 ms is
rendered good, although 3000 ms is in the needs-improvement band of the
public thresholds. -/
theorem webVitalsGrid_severity_counterexample :
    scoreSeverity (some 0.95) = Severity.good ∧
    getSeverity "lcp" 3000 false = Severity.needsImprovement ∧
    (2500 : ℚ) < 3000 ∧ (3000 : ℚ) ≤ 4000 ∧
    Severity.good ≠ Severity.needsImprovement := by
  refine ⟨by norm_num [scoreSeverity], ?_, by norm_num, by norm_num, by simp⟩
  norm_num [getSeverity]

/-- Claim C2 (amended): in the `WebVitalsGrid` variant that uses
`getSeverity`, the severity of every card matches the public thresholds (LCP
good iff ≤ 2500 ms, needs-improvement iff ≤ 4000 ms; INP 200/500 ms; CLS
0.1/0.25; TBT fallback 200/600 ms; any other metric id is poor); the variant
of src/unnamed/part_000 instead classifies by the Lighthouse score field:
good iff score ≥ 0.9, needs-improvement iff 0.5 ≤ score < 0.9, else poor,
with a missing score treated as 0. -/
theorem getSeverity_thresholds (v s : ℚ) (idStr : String) :
    (getSeverity "lcp" v false = Severity.good ↔ v ≤ 2500) ∧
    (getSeverity "lcp" v false = Severity.needsImprovement ↔ 2500 < v ∧ v ≤ 4000) ∧
    (getSeverity "lcp" v false = Severity.poor ↔ 4000 < v) ∧
    (getSeverity "inp" v false = Severity.good ↔ v ≤ 200) ∧
    (getSeverity "inp" v false = Severity.needsImprovement ↔ 200 < v ∧ v ≤ 500) ∧
    (getSeverity "inp" v false = Severity.poor ↔ 500 < v) ∧
    (getSeverity "cls" v false = Severity.good ↔ v ≤ 0.1) ∧
    (getSeverity "cls" v false = Severity.needsImprovement ↔ 0.1 < v ∧ v ≤ 0.25) ∧
    (getSeverity "cls" v false = Severity.poor ↔ 0.25 < v) ∧
    (getSeverity idStr v true = Severity.good ↔ v ≤ 200) ∧
    (getSeverity idStr v true = Severity.needsImprovement ↔ 200 < v ∧ v ≤ 600) ∧
    (getSeverity idStr v true = Severity.poor ↔ 600 < v) ∧
    (idStr ≠ "lcp" → idStr ≠ "inp" → idStr ≠ "cls" →
      getSeverity idStr v false = Severity.poor) ∧
    (scoreSeverity (some s) = Severity.good ↔ 0.9 ≤ s) ∧
    (scoreSeverity (some s) = Severity.needsImprovement ↔ 0.5 ≤ s ∧ s < 0.9) ∧
    (scoreSeverity (some s) = Severity.poor ↔ s < 0.5) ∧
    scoreSeverity none = Severity.poor := by
  have hgrid : ∀ w : ℚ,
      (scoreSeverity (some w) = Severity.good ↔ 0.9 ≤ w) ∧
      (scoreSeverity (some w) = Severity.needsImprovement ↔ 0.5 ≤ w ∧ w < 0.9) ∧
      (scoreSeverity (some w) = Severity.poor ↔ w < 0.5) := by
    intro w
    simp only [scoreSeverity, Option.getD]
    refine ⟨by split_ifs with h1 h2 <;> simp [*], ?_, ?_⟩
    · split_ifs with h1 h2
      · exact iff_of_false (by simp) (fun hc => absurd h1 (not_le.mpr hc.2))
      · exact iff_of_true rfl ⟨h2, not_le.mp h1⟩
      · exact iff_of_false (by simp) (fun hc => h2 hc.1)
    · split_ifs with h1 h2
      · exact iff_of_false (by simp) (fun hc => absurd (le_trans (by norm_num) h1)
          (not_le.mpr hc))
      · exact iff_of_false (by simp) (fun hc => absurd h2 (not_le.mpr hc))
      · exact iff_of_true rfl (not_le.mp h2)
  refine ⟨?_, ?_, ?_, ?_, ?_, ?_, ?_, ?_, ?_, ?_, ?_, ?_, ?_, ?_, ?_, ?_, ?_⟩
  · rw [getSeverity_lcp]; exact severity_if_good_iff
  · rw [getSeverity_lcp]; exact severity_if_ni_iff
  · rw [getSeverity_lcp]; exact severity_if_poor_iff (by norm_num)
  · rw [getSeverity_inp]; exact severity_if_good_iff
  · rw [getSeverity_inp]; exact severity_if_ni_iff
  · rw [getSeverity_inp]; exact severity_if_poor_iff (by norm_num)
  · rw [getSeverity_cls]; exact severity_if_good_iff
  · rw [getSeverity_cls]; exact severity_if_ni_iff
  · rw [getSeverity_cls]; exact severity_if_poor_iff (by norm_num)
  · rw [getSeverity_fallback]; exact severity_if_good_iff
  · rw [getSeverity_fallback]; exact severity_if_ni_iff
  · rw [getSeverity_fallback]; exact severity_if_poor_iff (by norm_num)
  · intro h1 h2 h3
    simp [getSeverity, h1, h2, h3]
  · exact (hgrid s).1
  · exact (hgrid s).2.1
  · exact (hgrid s).2.2
  · norm_num [scoreSeverity]

/-- Claim C2 (witness for the amended theorem), at value 100 ms, score 0 and
the metric id "tbt". -/
theorem getSeverity_thresholds_witness :
    (getSeverity "lcp" 100 false = Severity.good ↔ (100 : ℚ) ≤ 2500) ∧
    (getSeverity "lcp" 100 false = Severity.needsImprovement ↔
      (2500 : ℚ) < 100 ∧ (100 : ℚ) ≤ 4000) ∧
    (getSeverity "lcp" 100 false = Severity.poor ↔ (4000 : ℚ) < 100) ∧
    (getSeverity "inp" 100 false = Severity.good ↔ (100 : ℚ) ≤ 200) ∧
    (getSeverity "inp" 100 false = Severity.needsImprovement ↔
      (200 : ℚ) < 100 ∧ (100 : ℚ) ≤ 500) ∧
    (getSeverity "inp" 100 false = Severity.poor ↔ (500 : ℚ) < 100) ∧
    (getSeverity "cls" 100 false = Severity.good ↔ (100 : ℚ) ≤ 0.1) ∧
    (getSeverity "cls" 100 false = Severity.needsImprovement ↔
      (0.1 : ℚ) < 100 ∧ (100 : ℚ) ≤ 0.25) ∧
    (getSeverity "cls" 100 false = Severity.poor ↔ (0.25 : ℚ) < 100) ∧
    (getSeverity "tbt" 100 true = Severity.good ↔ (100 : ℚ) ≤ 200) ∧
    (getSeverity "tbt" 100 true = Severity.needsImprovement ↔
      (200 : ℚ) < 100 ∧ (100 : ℚ) ≤ 600) ∧
    (getSeverity "tbt" 100 true = Severity.poor ↔ (600 : ℚ) < 100) ∧
    (("tbt" : String) ≠ "lcp" → ("tbt" : String) ≠ "inp" → ("tbt" : String) ≠ "cls" →
      getSeverity "tbt" 100 false = Severity.poor) ∧
    (scoreSeverity (some 0) = Severity.good ↔ (0.9 : ℚ) ≤ 0) ∧
    (scoreSeverity (some 0) = Severity.needsImprovement ↔
      (0.5 : ℚ) ≤ 0 ∧ (0 : ℚ) < 0.9) ∧
    (scoreSeverity (some 0) = Severity.poor ↔ (0 : ℚ) < 0.5) ∧
    scoreSeverity none = Severity.poor :=
  getSeverity_thresholds 100 0 "tbt"

/-- Claim C10: `getImpactLevel` partitions the score range at 0.6 and 0.3,
and `getBarColor` applies a fixed priority: render-blocking scripts first,
then optimized images, and only otherwise the impact-level colour. -/
theorem impact_level_and_bar_color (score : ℚ) (d : ChartData) :
    (getImpactLevel score = ImpactLevel.high ↔ 0.6 ≤ score) ∧
    (getImpactLevel score = ImpactLevel.medium ↔ 0.3 ≤ score ∧ score < 0.6) ∧
    (getImpactLevel score = ImpactLevel.low ↔ score < 0.3) ∧
    (d.isRenderBlockingScript = true → getBarColor d = "#a855f7") ∧
    (d.isRenderBlockingScript = false → d.isOptimizedImage = true →
      getBarColor d = "#3b82f6") ∧
    (d.isRenderBlockingScript = false → d.isOptimizedImage = false →
      getBarColor d = impactLevelColor d.impactLevel) := by
  refine ⟨?_, ?_, ?_, ?_, ?_, ?_⟩
  · unfold getImpactLevel
    split_ifs with h1 h2 <;> simp [*]
  · unfold getImpactLevel
    split_ifs with h1 h2
    · exact iff_of_false (by simp) (fun hc => absurd h1 (not_le.mpr hc.2))
    · exact iff_of_true rfl ⟨h2, not_le.mp h1⟩
    · exact iff_of_false (by simp) (fun hc => h2 hc.1)
  · unfold getImpactLevel
    split_ifs with h1 h2
    · exact iff_of_false (by simp)
        (fun hc => absurd (le_trans (by norm_num) h1) (not_le.mpr hc))
    · exact iff_of_false (by simp) (fun hc => absurd h2 (not_le.mpr hc))
    · exact iff_of_true rfl (not_le.mp h2)
  · intro h
    simp [getBarColor, h]
  · intro h1 h2
    simp [getBarColor, h1, h2]
  · intro h1 h2
    simp [getBarColor, h1, h2]

/-- Claim C10 (witness), at score 0.45 and a plain low-impact row. -/
theorem impact_level_and_bar_color_witness :
    (getImpactLevel 0.45 = ImpactLevel.high ↔ (0.6 : ℚ) ≤ 0.45) ∧
    (getImpactLevel 0.45 = ImpactLevel.medium ↔
      (0.3 : ℚ) ≤ 0.45 ∧ (0.45 : ℚ) < 0.6) ∧
    (getImpactLevel 0.45 = ImpactLevel.low ↔ (0.45 : ℚ) < 0.3) ∧
    (scriptRow.isRenderBlockingScript = true → getBarColor scriptRow = "#a855f7") ∧
    (scriptRow.isRenderBlockingScript = false → scriptRow.isOptimizedImage = true →
      getBarColor scriptRow = "#3b82f6") ∧
    (scriptRow.isRenderBlockingScript = false → scriptRow.isOptimizedImage = false →
      getBarColor scriptRow = impactLevelColor scriptRow.impactLevel) :=
  impact_level_and_bar_color 0.45 scriptRow

lemma sortLE_iff (mode : SortMode) (a b : ChartData) :
    sortLE mode a b = true ↔ sortKeyRel mode a b := by
  cases mode <;> simp [sortLE, sortKeyRel]

lemma sortLE_trans (mode : SortMode) : ∀ a b c : ChartData,
    sortLE mode a b → sortLE mode b c → sortLE mode a c := by
  intro a b c hab hbc
  cases mode <;> simp [sortLE] at hab hbc ⊢ <;>
    first
    | exact le_trans hab hbc
    | exact le_trans hbc hab

lemma sortLE_total (mode : SortMode) : ∀ a b : ChartData,
    sortLE mode a b || sortLE mode b a := by
  intro a b
  cases mode <;> simp [sortLE] <;> exact le_total _ _

/-- Claim C4: for every list of chart rows and every sort mode, the sorted
output is a permutation of the input, ordered ascending by start for mode
start, descending by duration for mode duration, descending by transfer size
for mode size, and descending by impact score for mode impact. -/
theorem sortRows_perm_and_sorted (mode : SortMode) (l : List ChartData) :
    (sortRows mode l).Perm l ∧ (sortRows mode l).Pairwise (sortKeyRel mode) := by
  constructor
  · exact List.mergeSort_perm l (sortLE mode)
  · exact (List.sorted_mergeSort (sortLE_trans mode) (sortLE_total mode) l).imp
      (fun h => (sortLE_iff mode _ _).mp h)

/-- Claim C5: filtering with a type other than All keeps exactly the rows of
that resource type, in their original relative order (the result is a sublist
of the input), and filtering with All leaves the list unchanged. -/
theorem chartFilter_spec (filterType : String) (l : List ChartData) (r : ChartData) :
    chartFilter "All" l = l ∧
    (filterType ≠ "All" →
      ((r ∈ chartFilter filterType l ↔ r ∈ l ∧ r.resourceType = filterType) ∧
        (chartFilter filterType l).Sublist l)) := by
  constructor
  · simp [chartFilter]
  · intro h
    rw [chartFilter, if_neg h]
    constructor
    · simp [List.mem_filter]
    · exact List.filter_sublist l

/-- Claim C5 (witness), filtering two rows by the Script type. -/
theorem chartFilter_spec_witness :
    chartFilter "All" [scriptRow, imageRow] = [scriptRow, imageRow] ∧
    (("Script" : String) ≠ "All" →
      ((scriptRow ∈ chartFilter "Script" [scriptRow, imageRow] ↔
          scriptRow ∈ [scriptRow, imageRow] ∧ scriptRow.resourceType = "Script") ∧
        (chartFilter "Script" [scriptRow, imageRow]).Sublist [scriptRow, imageRow])) :=
  chartFilter_spec "Script" [scriptRow, imageRow] scriptRow

lemma globalStats_startTime_min (audits : Audits) (items : List AuditItem)
    (h : audits.networkRequests = some items)
    (r : AuditItem) (hr : r ∈ items) (hs : (itemStart r).isSome) :
    (∃ q ∈ items, itemStart q = some ((globalStats audits).startTime)) ∧
    (∀ p ∈ items, ∀ t, itemStart p = some t → (globalStats audits).startTime ≤ t) := by
  have hrv : r ∈ items.filter (fun r => (itemStart r).isSome) :=
    List.mem_filter.mpr ⟨hr, hs⟩
  have hne : items.filter (fun r => (itemStart r).isSome) ≠ [] :=
    List.ne_nil_of_mem hrv
  have hstats : (globalStats audits).startTime =
      (((items.filter (fun r => (itemStart r).isSome)).map
        (fun r => (itemStart r).getD 0)).min?).getD 0 := by
    simp only [globalStats, h]
    rw [if_neg (by simpa using hne)]
  obtain ⟨m, hm⟩ := Option.isSome_iff_exists.mp
    (List.isSome_min?_of_mem
      (List.mem_map_of_mem (fun r => (itemStart r).getD 0) hrv))
  have hmval : (globalStats audits).startTime = m := by
    rw [hstats, hm, Option.getD_some]
  constructor
  · obtain ⟨q, hqv, hqm⟩ := List.mem_map.mp (List.min?_mem min_choice hm)
    obtain ⟨hqi, hqs⟩ := List.mem_filter.mp hqv
    refine ⟨q, hqi, ?_⟩
    cases hq : itemStart q with
    | none => rw [hq] at hqs; simp at hqs
    | some t =>
      rw [hq] at hqm
      simp only [Option.getD_some] at hqm
      rw [hmval, ← hqm]
  · intro p hp t hpt
    have hpv : p ∈ items.filter (fun r => (itemStart r).isSome) :=
      List.mem_filter.mpr ⟨hp, by simp [hpt]⟩
    have hmem : t ∈ (items.filter (fun r => (itemStart r).isSome)).map
        (fun r => (itemStart r).getD 0) :=
      List.mem_map.mpr ⟨p, hpv, by simp [hpt]⟩
    have hle := (List.le_min?_iff (fun a b c => le_min_iff) hm).mp (le_refl m) t hmem
    rw [hmval]
    exact hle

/-- Claim C3: each derived waterfall row appears in the chart data, its start
field is the request start minus the global start, floored at 0 and rounded,
its duration field is the request end minus start, floored at 1 and rounded,
and (when the item has a defined start time) the global start time is the
minimum of the defined item start times. -/
theorem chartData_row_geometry (audits : Audits) (items : List AuditItem)
    (h : audits.networkRequests = some items) (r : AuditItem) (hr : r ∈ items) :
    toChartData audits (globalStats audits) (toNetworkRequest r) ∈ baseRows audits ∧
    (toChartData audits (globalStats audits) (toNetworkRequest r)).start =
      round (max 0 ((toNetworkRequest r).startTime - (globalStats audits).startTime)) ∧
    (toChartData audits (globalStats audits) (toNetworkRequest r)).duration =
      round (max 1 ((toNetworkRequest r).endTime - (toNetworkRequest r).startTime)) ∧
    ((itemStart r).isSome →
      (∃ q ∈ items, itemStart q = some ((globalStats audits).startTime)) ∧
      (∀ p ∈ items, ∀ t, itemStart p = some t → (globalStats audits).startTime ≤ t)) := by
  refine ⟨?_, rfl, rfl, fun hs => globalStats_startTime_min audits items h r hr hs⟩
  simp only [baseRows, h, List.filter_true]
  rw [if_neg (by simp [List.isEmpty_iff]; exact List.ne_nil_of_mem hr)]
  exact List.mem_map_of_mem _ (List.mem_map_of_mem toNetworkRequest hr)

/-- Claim C3 (witness), for the Script item of the two-item audit. -/
theorem chartData_row_geometry_witness :
    toChartData twoItemAudits (globalStats twoItemAudits) (toNetworkRequest uItem) ∈
      baseRows twoItemAudits ∧
    (toChartData twoItemAudits (globalStats twoItemAudits) (toNetworkRequest uItem)).start =
      round (max 0 ((toNetworkRequest uItem).startTime -
        (globalStats twoItemAudits).startTime)) ∧
    (toChartData twoItemAudits (globalStats twoItemAudits)
        (toNetworkRequest uItem)).duration =
      round (max 1 ((toNetworkRequest uItem).endTime -
        (toNetworkRequest uItem).startTime)) ∧
    ((itemStart uItem).isSome →
      (∃ q ∈ twoItemList, itemStart q = some ((globalStats twoItemAudits).startTime)) ∧
      (∀ p ∈ twoItemList, ∀ t, itemStart p = some t →
        (globalStats twoItemAudits).startTime ≤ t)) :=
  chartData_row_geometry twoItemAudits twoItemList rfl uItem
    (by simp [twoItemList])

lemma rendersNull_iff (audits : Audits) (ft : String) (mode : SortMode) :
    rendersNull audits ft mode = true ↔ chartFilter ft (baseRows audits) = [] := by
  rw [rendersNull, List.isEmpty_iff_length_eq_zero, chartRowsDisplayed, sortRows,
    (List.mergeSort_perm _ _).length_eq, List.length_eq_zero]

/-- Claim C6 (counterexample): an audits value whose single network request
has no defined start time still produces one chart row, because after the
defaults mapping the `validRequests` filter can never reject anything; the
component therefore renders the chart rather than nothing. -/
theorem chartData_no_start_counterexample :
    (itemStart ({ url := "a" } : AuditItem)).isSome = false ∧
    noStartAudits.networkRequests = some [{ url := "a" }] ∧
    (baseRows noStartAudits).length = 1 ∧
    rendersNull noStartAudits "All" SortMode.start = false := by
  refine ⟨rfl, rfl, by decide, ?_⟩
  rw [Bool.eq_false_iff]
  intro hcontra
  have hnil := (rendersNull_iff noStartAudits "All" SortMode.start).mp hcontra
  rw [chartFilter, if_pos rfl] at hnil
  have hlen : (baseRows noStartAudits).length = 1 := by decide
  rw [hnil] at hlen
  simp at hlen

/-- Claim C6 (amended): the derived chart data is empty, and the component
renders nothing, exactly when the network-requests items list is missing or
empty; an item with no defined start time still yields a row (its times
defaulting to 0), and every missing optional field is replaced by 0 or the
empty string, no error being raised (all functions are total). -/
theorem chartData_missing_data_handling (audits : Audits) (items : List AuditItem)
    (u : String) :
    (audits.networkRequests = none → baseRows audits = []) ∧
    (audits.networkRequests = some [] → baseRows audits = []) ∧
    (audits.networkRequests = some items → items ≠ [] →
      (baseRows audits).length = items.length ∧ baseRows audits ≠ []) ∧
    (baseRows audits = [] → rendersNull audits "All" SortMode.start = true) ∧
    toNetworkRequest { url := u } =
      { url := u, protocol := "", startTime := 0, endTime := 0, transferSize := 0,
        resourceSize := 0, resourceType := "", mimeType := "" } := by
  refine ⟨?_, ?_, ?_, ?_, rfl⟩
  · intro h
    simp [baseRows, h]
  · intro h
    simp [baseRows, h]
  · intro h hne
    have hrw : baseRows audits =
        (items.map toNetworkRequest).map (toChartData audits (globalStats audits)) := by
      simp only [baseRows, h, List.filter_true]
      rw [if_neg (by simpa [List.isEmpty_iff] using fun hc => hne (by
        simpa using congrArg List.length hc))]
    constructor
    · rw [hrw]; simp
    · rw [hrw]
      simp only [ne_eq, List.map_eq_nil_iff]
      exact hne
  · intro h
    simp [rendersNull, chartRowsDisplayed, chartFilter, sortRows, h, List.mergeSort_nil]

/-- Claim C6 (witness for the amended theorem), on the two-item audit. -/
theorem chartData_missing_data_handling_witness :
    (twoItemAudits.networkRequests = none → baseRows twoItemAudits = []) ∧
    (twoItemAudits.networkRequests = some [] → baseRows twoItemAudits = []) ∧
    (twoItemAudits.networkRequests = some twoItemList → twoItemList ≠ [] →
      (baseRows twoItemAudits).length = twoItemList.length ∧
      baseRows twoItemAudits ≠ []) ∧
    (baseRows twoItemAudits = [] →
      rendersNull twoItemAudits "All" SortMode.start = true) ∧
    toNetworkRequest { url := "w" } =
      { url := "w", protocol := "", startTime := 0, endTime := 0, transferSize := 0,
        resourceSize := 0, resourceType := "", mimeType := "" } :=
  chartData_missing_data_handling twoItemAudits twoItemList "w"

/-- Claim C7 (counterexample): in the reachable rendered state where no item
has a defined start time, `globalStats.duration` is 0 and the handler returns
early, so an in-grid mouse position sets no marker at all, contrary to the
claimed formula (which would give round(30/630*28000) = 1333 ms here). -/
theorem marker_zero_duration_counterexample :
    globalStats noStartAudits = ⟨0, 0, 0, 0⟩ ∧
    (baseRows noStartAudits).length = 1 ∧
    handleMouseMoveHandler (globalStats noStartAudits) 1000 300 1 = MarkerUpdate.keep ∧
    round ((30 : ℚ) / 630 * 28000) = 1333 ∧
    MarkerUpdate.keep ≠ MarkerUpdate.set 1333 := by
  refine ⟨by decide, by decide, by decide, by norm_num [round_eq], by simp⟩

/-- Claim C7 (amended): whenever `globalStats.duration` is nonzero, a mouse
position whose offset `relativeX` inside the grid satisfies
0 ≤ relativeX ≤ gridWidth sets the marker to
round((relativeX / gridWidth) * max(totalDuration, 28000)), the same display
duration used as the x-axis domain; positions outside the grid clear the
marker. When the duration is 0 the handler returns early and the marker is
left unchanged. -/
theorem marker_time_proportional (stats : GlobalStats)
    (rectWidth x zoom yw tlo gw relX : ℚ)
    (hd : stats.duration ≠ 0)
    (hyw : yw = if 10 < zoom then 0 else 260)
    (htlo : tlo = yw + 10)
    (hgw : gw = rectWidth - tlo - 100)
    (hrel : relX = x - tlo) :
    (0 ≤ relX → relX ≤ gw →
      handleMouseMoveHandler stats rectWidth x zoom =
        MarkerUpdate.set (round (relX / gw * max stats.duration 28000))) ∧
    (¬ (0 ≤ relX ∧ relX ≤ gw) →
      handleMouseMoveHandler stats rectWidth x zoom = MarkerUpdate.clear) ∧
    displayDuration stats.duration = xAxisDomainMax stats := by
  subst hyw htlo hgw hrel
  refine ⟨?_, ?_, rfl⟩
  · intro h0 h1
    simp only [handleMouseMoveHandler, if_neg hd]
    rw [if_pos ⟨h0, h1⟩]
    rfl
  · intro h
    simp only [handleMouseMoveHandler, if_neg hd]
    rw [if_neg h]

/-- Claim C7 (witness for the amended theorem), with a 5000 ms duration, a
1000 px container and the cursor 30 px into the grid. -/
theorem marker_time_proportional_witness :
    ((0 : ℚ) ≤ 30 → (30 : ℚ) ≤ 630 →
      handleMouseMoveHandler ⟨0, 5000, 5000, 10⟩ 1000 300 1 =
        MarkerUpdate.set (round ((30 : ℚ) / 630 *
          max (GlobalStats.mk 0 5000 5000 10).duration 28000))) ∧
    (¬ ((0 : ℚ) ≤ 30 ∧ (30 : ℚ) ≤ 630) →
      handleMouseMoveHandler ⟨0, 5000, 5000, 10⟩ 1000 300 1 = MarkerUpdate.clear) ∧
    displayDuration (GlobalStats.mk 0 5000 5000 10).duration =
      xAxisDomainMax ⟨0, 5000, 5000, 10⟩ :=
  marker_time_proportional ⟨0, 5000, 5000, 10⟩ 1000 300 1 260 270 630 30
    (by norm_num) (by norm_num) (by norm_num) (by norm_num) (by norm_num)

lemma round_mono_real {x y : ℝ} (h : x ≤ y) : round x ≤ round y := by
  rw [round_eq, round_eq]
  exact Int.floor_mono (by linarith)

lemma simExponentExpr_nonneg {js img srv : ℝ} (hjs : 0 ≤ js) (himg : 0 ≤ img)
    (hsrv : 0 ≤ srv) :
    0 ≤ (js / 100 * 0.30 + img / 100 * 0.25 + srv / 100 * 0.10) * 5 := by
  linarith

lemma calculateSimulatedScore_eq (b : ℤ) (js img srv : ℝ) :
    calculateSimulatedScore b js img srv =
      min 100 (round ((b : ℝ) + (100 - (b : ℝ)) *
        (1 - Real.exp (-((js / 100 * 0.30 + img / 100 * 0.25 + srv / 100 * 0.10) * 5))))) :=
  rfl

lemma simScore_le (b : ℤ) (hb : b ≤ 100) {x y : ℝ} (hxy : x ≤ y) :
    min 100 (round ((b : ℝ) + (100 - (b : ℝ)) * (1 - Real.exp (-x)))) ≤
    min 100 (round ((b : ℝ) + (100 - (b : ℝ)) * (1 - Real.exp (-y)))) := by
  have hbr : (b : ℝ) ≤ 100 := by exact_mod_cast hb
  have he : Real.exp (-y) ≤ Real.exp (-x) := Real.exp_le_exp.mpr (by linarith)
  have h3 := mul_le_mul_of_nonneg_left (by linarith :
    (1 - Real.exp (-x)) ≤ (1 - Real.exp (-y))) (by linarith : (0 : ℝ) ≤ 100 - (b : ℝ))
  exact min_le_min le_rfl (round_mono_real (by linarith))

lemma simScore_lower (b : ℤ) (hb : b ≤ 100) {x : ℝ} (hx : 0 ≤ x) :
    b ≤ min 100 (round ((b : ℝ) + (100 - (b : ℝ)) * (1 - Real.exp (-x)))) := by
  have hbr : (b : ℝ) ≤ 100 := by exact_mod_cast hb
  have hexp : Real.exp (-x) ≤ 1 := Real.exp_le_one_iff.mpr (by linarith)
  have hcore : (b : ℝ) ≤ (b : ℝ) + (100 - (b : ℝ)) * (1 - Real.exp (-x)) := by nlinarith
  have hr : b ≤ round ((b : ℝ) + (100 - (b : ℝ)) * (1 - Real.exp (-x))) := by
    have hm := round_mono_real hcore
    rwa [round_intCast] at hm
  exact le_min hb hr

/-- Claim C9: for an integer base score in [0, 100] and slider values in
[0, 100], the simulated score lies between the base score and 100, equals the
base score when all sliders are 0, and is monotonically non-decreasing in
each slider. -/
theorem calculateSimulatedScore_spec (b : ℤ) (js img srv js2 img2 srv2 : ℝ)
    (hb0 : 0 ≤ b) (hb1 : b ≤ 100)
    (hjs : 0 ≤ js) (himg : 0 ≤ img) (hsrv : 0 ≤ srv)
    (hjs2 : js ≤ js2) (himg2 : img ≤ img2) (hsrv2 : srv ≤ srv2) :
    b ≤ calculateSimulatedScore b js img srv ∧
    calculateSimulatedScore b js img srv ≤ 100 ∧
    calculateSimulatedScore b 0 0 0 = b ∧
    calculateSimulatedScore b js img srv ≤ calculateSimulatedScore b js2 img srv ∧
    calculateSimulatedScore b js img srv ≤ calculateSimulatedScore b js img2 srv ∧
    calculateSimulatedScore b js img srv ≤ calculateSimulatedScore b js img srv2 := by
  refine ⟨?_, ?_, ?_, ?_, ?_, ?_⟩
  · rw [calculateSimulatedScore_eq]
    exact simScore_lower b hb1 (simExponentExpr_nonneg hjs himg hsrv)
  · rw [calculateSimulatedScore_eq]
    exact min_le_left _ _
  · rw [calculateSimulatedScore_eq]
    have hx0 : (((0 : ℝ) / 100 * 0.30 + (0 : ℝ) / 100 * 0.25 +
        (0 : ℝ) / 100 * 0.10) * 5) = 0 := by norm_num
    rw [hx0, neg_zero, Real.exp_zero]
    have hcore : (b : ℝ) + (100 - (b : ℝ)) * (1 - 1) = ((b : ℤ) : ℝ) := by ring
    rw [hcore, round_intCast]
    exact min_eq_right hb1
  · rw [calculateSimulatedScore_eq, calculateSimulatedScore_eq]
    exact simScore_le b hb1 (by linarith)
  · rw [calculateSimulatedScore_eq, calculateSimulatedScore_eq]
    exact simScore_le b hb1 (by linarith)
  · rw [calculateSimulatedScore_eq, calculateSimulatedScore_eq]
    exact simScore_le b hb1 (by linarith)

/-- Claim C9 (witness), at base score 50 and sliders raised to 1, 2 and 3. -/
theorem calculateSimulatedScore_spec_witness :
    (50 : ℤ) ≤ calculateSimulatedScore 50 0 0 0 ∧
    calculateSimulatedScore 50 0 0 0 ≤ 100 ∧
    calculateSimulatedScore 50 0 0 0 = 50 ∧
    calculateSimulatedScore 50 0 0 0 ≤ calculateSimulatedScore 50 1 0 0 ∧
    calculateSimulatedScore 50 0 0 0 ≤ calculateSimulatedScore 50 0 2 0 ∧
    calculateSimulatedScore 50 0 0 0 ≤ calculateSimulatedScore 50 0 0 3 :=
  calculateSimulatedScore_spec 50 0 0 0 1 2 3 (by decide) (by decide)
    (by norm_num) (by norm_num) (by norm_num) (by norm_num) (by norm_num) (by norm_num)

end Sightline
